import Mathlib

/-!
Verification development for the SearchLightAI video-indexing server
(`apps/server`).  The Python source is shallowly embedded: the relational
record store, the two Qdrant vector collections and the in-memory service
objects become explicit Lean data, the orchestrator and the retrieval
engine become pure functions over that data, and every external call
(ffmpeg/ffprobe subprocesses, model inference, Qdrant client calls) is an
input supplied through an environment record, with `Except` capturing the
possibility that the call raises.

Python floats are modelled as exact rationals (`ℚ`) where only ordering and
equality matter, and as reals (`ℝ`) where the code computes with `math.exp`
(the score-calibration helper).  Wall-clock timestamps (`utc_now`) are an
abstract `Nat` tick passed in by the caller.
-/

namespace SearchLight

/-! ## Data model: `app/models/video.py` and `app/models/transcript.py` -/

/-- Processing status enum `VideoStatus` (video.py lines 17-27). -/
inductive VideoStatus where
  | pending
  | processing
  | extracting_frames
  | extracting_audio
  | transcribing
  | embedding
  | completed
  | failed
deriving DecidableEq, Repr

/-- Relational row for the `videos` table (`Video`, video.py lines 30-65).
Timestamps are abstract `Nat` ticks; float columns are `ℚ`. -/
structure VideoRec where
  id : String
  filename : String
  original_path : String
  thumbnail_path : Option String
  file_size : Option Nat
  duration : Option ℚ
  width : Option Nat
  height : Option Nat
  fps : Option ℚ
  status : VideoStatus
  error_message : Option String
  frame_count : Nat
  keyframe_count : Nat
  created_at : Nat
  updated_at : Nat
  processed_at : Option Nat
deriving DecidableEq, Repr

/-- Relational row for the `transcripts` table (`Transcript`, transcript.py).
The random `uuid4` primary key and the unused `search_vector` column are
omitted; neither participates in any claim. -/
structure TranscriptRec where
  video_id : String
  text : String
  start_time : ℚ
  end_time : ℚ
  confidence : Option ℚ
  language : Option String
deriving DecidableEq, Repr

/-- `Video.mark_processing` (video.py lines 67-70): set the given status and
refresh `updated_at`. -/
def mark_processing (v : VideoRec) (status : VideoStatus) (now : Nat) : VideoRec :=
  { v with status := status, updated_at := now }

/-- `Video.mark_completed` (video.py lines 72-76). -/
def mark_completed (v : VideoRec) (now : Nat) : VideoRec :=
  { v with status := VideoStatus.completed, updated_at := now, processed_at := some now }

/-- `Video.mark_failed` (video.py lines 78-82). -/
def mark_failed (v : VideoRec) (error : String) (now : Nat) : VideoRec :=
  { v with status := VideoStatus.failed, error_message := some error, updated_at := now }

/-- A freshly registered video row, as constructed by `add_video` /
`upload_video` (videos.py lines 101-110): status `PENDING`, model defaults for
every other mutable field. -/
def freshVideo (id filename original_path : String) (now : Nat) : VideoRec :=
  { id := id
    filename := filename
    original_path := original_path
    thumbnail_path := none
    file_size := none
    duration := none
    width := none
    height := none
    fps := none
    status := VideoStatus.pending
    error_message := none
    frame_count := 0
    keyframe_count := 0
    created_at := now
    updated_at := now
    processed_at := none }

/-! ## Score calibration: `app/utils/scoring.py` -/

/-- `rescale_siglip_score` (scoring.py lines 13-26): logistic rescale of a raw
SigLIP cosine similarity, with midpoint 0.18 and steepness 12, clamped to
[0, 1] by `max(0.0, min(1.0, rescaled))`. -/
noncomputable def rescale_siglip_score (cosine_score : ℝ) : ℝ :=
  let midpoint : ℝ := 0.18
  let steepness : ℝ := 12
  let x := (cosine_score - midpoint) * steepness
  let rescaled := 1 / (1 + Real.exp (-x))
  max 0 (min 1 rescaled)

/-! ## Vector store: `app/services/vector_store.py` -/

/-- Ephemeral keyframe dict produced by `extract_keyframes`
(`frame_path`, `timestamp`, optional `scene_index`); the payload builder reads
`keyframe.get("scene_index", i)`. -/
structure Keyframe where
  frame_path : String
  timestamp : ℚ
  scene_index : Option Nat
deriving DecidableEq, Repr

/-- Transcript segment dict returned by `TranscriptionService.transcribe`. -/
structure Segment where
  text : String
  start_time : ℚ
  end_time : ℚ
  confidence : Option ℚ
  language : Option String
deriving DecidableEq, Repr

/-- Point payload stored in Qdrant (vector_store.py lines 106-111 for the
visual collection, lines 148-153 for the speech collection). -/
inductive Payload where
  | visual (video_id frame_path : String) (timestamp : ℚ) (scene_index : Nat)
  | speech (video_id text : String) (start_time end_time : ℚ)
deriving DecidableEq, Repr

/-- The `video_id` field present in both payload shapes. -/
def Payload.videoId : Payload → String
  | .visual v _ _ _ => v
  | .speech v _ _ _ => v

/-- A stored Qdrant point: id, vector, payload. -/
structure Point where
  id : String
  vector : List ℚ
  payload : Payload
deriving DecidableEq, Repr

/-- `generate_point_id` (vector_store.py lines 20-24).  The source returns
`str(uuid5(NAMESPACE_DNS, name))` for `name = f"{video_id}_{prefix}_{index}"`;
`uuid5` is a deterministic hash of `name`, so point identity is modelled by
the name itself. -/
def generate_point_id (video_id : String) (index : Nat) (tag : String) : String :=
  video_id ++ "_" ++ tag ++ "_" ++ toString index

/-- Qdrant upsert of one point: replace the point carrying the same id if one
exists, otherwise insert. -/
def upsertPoint (p : Point) : List Point → List Point
  | [] => [p]
  | q :: rest => if q.id = p.id then p :: rest else q :: upsertPoint p rest

/-- Qdrant upsert of a batch of points (`client.upsert(collection, points)`). -/
def upsertPoints (coll : List Point) (ps : List Point) : List Point :=
  ps.foldl (fun acc p => upsertPoint p acc) coll

/-- The two collections of the vector index (`visual_embeddings` and
`speech_embeddings`). -/
structure VectorStore where
  visual : List Point
  speech : List Point
deriving DecidableEq, Repr

/-- The point list built by `store_visual_embeddings` (vector_store.py lines
98-113): `for i, (keyframe, embedding) in enumerate(zip(keyframes,
embeddings))`, each point carrying `generate_point_id(video_id, i, "visual")`
and payload `{video_id, frame_path, timestamp, scene_index}`. -/
def visualPointsFrom (video_id : String) : Nat → List (Keyframe × List ℚ) → List Point
  | _, [] => []
  | i, (kf, e) :: rest =>
      { id := generate_point_id video_id i "visual"
        vector := e
        payload := Payload.visual video_id kf.frame_path kf.timestamp (kf.scene_index.getD i) } ::
      visualPointsFrom video_id (i + 1) rest

/-- Points upserted by one call to `store_visual_embeddings`. -/
def visualPoints (video_id : String) (keyframes : List Keyframe)
    (embeddings : List (List ℚ)) : List Point :=
  visualPointsFrom video_id 0 (keyframes.zip embeddings)

/-- The point list built by `store_speech_embeddings` (vector_store.py lines
140-155). -/
def speechPointsFrom (video_id : String) : Nat → List (Segment × List ℚ) → List Point
  | _, [] => []
  | i, (seg, e) :: rest =>
      { id := generate_point_id video_id i "speech"
        vector := e
        payload := Payload.speech video_id seg.text seg.start_time seg.end_time } ::
      speechPointsFrom video_id (i + 1) rest

/-- Points upserted by one call to `store_speech_embeddings`. -/
def speechPoints (video_id : String) (segments : List Segment)
    (embeddings : List (List ℚ)) : List Point :=
  speechPointsFrom video_id 0 (segments.zip embeddings)

/-- `VectorStoreService.store_visual_embeddings` (vector_store.py lines
80-120): upsert the zipped points into the visual collection. -/
def store_visual_embeddings (video_id : String) (keyframes : List Keyframe)
    (embeddings : List (List ℚ)) (vs : VectorStore) : VectorStore :=
  { vs with visual := upsertPoints vs.visual (visualPoints video_id keyframes embeddings) }

/-- `VectorStoreService.store_speech_embeddings` (vector_store.py lines
122-162). -/
def store_speech_embeddings (video_id : String) (segments : List Segment)
    (embeddings : List (List ℚ)) (vs : VectorStore) : VectorStore :=
  { vs with speech := upsertPoints vs.speech (speechPoints video_id segments embeddings) }

/-- `VectorStoreService.delete_video_embeddings` (vector_store.py lines
215-249): filtered delete, in each collection, of every point whose payload
`video_id` matches. -/
def delete_video_embeddings (video_id : String) (vs : VectorStore) : VectorStore :=
  { visual := vs.visual.filter (fun p => p.payload.videoId ≠ video_id)
    speech := vs.speech.filter (fun p => p.payload.videoId ≠ video_id) }

/-! ## Application state: record store plus vector index -/

/-- Combined persistent state seen by the API layer: the `videos` table, the
`transcripts` table and the two vector collections.  `trace` is a ghost field
recording the `status` column value written by each record-store commit, used
to state the lifecycle claims. -/
structure AppState where
  videos : List VideoRec
  transcripts : List TranscriptRec
  vstore : VectorStore
  trace : List VideoStatus
deriving DecidableEq, Repr

/-- Row lookup `select(Video).where(Video.id == video_id)` followed by
`scalar_one_or_none()`. -/
def findVideoRow (video_id : String) (rows : List VideoRec) : Option VideoRec :=
  rows.find? (fun v => decide (v.id = video_id))

/-- Commit of a mutated `Video` ORM object: the row with the same primary key
is replaced (or inserted), and the committed status is recorded in the ghost
trace. -/
def upsertVideoRow (v : VideoRec) : List VideoRec → List VideoRec
  | [] => [v]
  | r :: rest => if r.id = v.id then v :: rest else r :: upsertVideoRow v rest

/-- `await session.commit()` with `video` pending in the session. -/
def commitVideo (v : VideoRec) (st : AppState) : AppState :=
  { st with videos := upsertVideoRow v st.videos, trace := st.trace ++ [v.status] }

/-- `await session.commit()` with `video` and freshly added transcript rows
pending in the session (videos.py lines 281-291). -/
def commitVideoAndTranscripts (v : VideoRec) (rows : List TranscriptRec)
    (st : AppState) : AppState :=
  { st with
    videos := upsertVideoRow v st.videos
    transcripts := st.transcripts ++ rows
    trace := st.trace ++ [v.status] }

/-- Transcript row built for one returned segment (videos.py lines 282-289). -/
def mkTranscript (video_id : String) (seg : Segment) : TranscriptRec :=
  { video_id := video_id
    text := seg.text
    start_time := seg.start_time
    end_time := seg.end_time
    confidence := seg.confidence
    language := seg.language }

/-! ## Audio probe: `app/services/audio_extractor.py` -/

/-- `AudioExtractorService.has_audio` (audio_extractor.py lines 76-95).  The
argument is the outcome of the `ffprobe` subprocess: `Except.ok stdout` when
it exits 0, `Except.error e` when `subprocess.run(..., check=True)` raises
`CalledProcessError`.  The source returns `bool(result.stdout.strip())` on
success — true exactly when the stdout contains a non-whitespace character —
and `False` on the exception. -/
def has_audio (probe : Except String String) : Bool :=
  match probe with
  | .ok out => out.data.any (fun c => !c.isWhitespace)
  | .error _ => false

/-! ## Batched image embedding: `app/services/embedding.py` -/

/-- Environment for `embed_images_batch`: `load` is `Image.open(p).convert`
(`none` when it raises and the loop hits `continue`), `embedImage` is the
per-image result of the SigLIP vision model. -/
structure EmbedEnv where
  load : String → Option String
  embedImage : String → List ℚ

/-- `EmbeddingService.embed_images_batch` (embedding.py lines 103-140): walk
the paths in consecutive batches of 16, silently drop the paths whose image
fails to load, embed the surviving images of the batch in order, and
concatenate. -/
def embed_images_batch (env : EmbedEnv) : List String → List (List ℚ)
  | [] => []
  | p :: rest =>
      let batch := (p :: rest).take 16
      let images := batch.filterMap env.load
      let embs := images.map env.embedImage
      embs ++ embed_images_batch env ((p :: rest).drop 16)
termination_by paths => paths.length
decreasing_by simp; omega

/-! ## Pipeline orchestrator: `process_video_task` (videos.py lines 233-327) -/

/-- Outcome of each external call made by one pipeline run.  The `Except`
value records whether the call returned or raised; record-store commits are
modelled as succeeding (the spec files persistence failures under a separate
taxonomy entry). -/
structure PipelineEnv where
  init_collections : Except String Unit
  extract_keyframes : Except String (List Keyframe)
  count_frames : Except String Nat
  audio_probe : Except String String
  extract_audio : Except String String
  transcribe : Except String (List Segment)
  embed_images : Except String (List (List ℚ))
  embed_texts : Except String (List (List ℚ))
  upsert_visual : Except String Unit
  upsert_speech : Except String Unit

/-- Step 3 and completion (videos.py lines 293-315): mark `EMBEDDING`, store
visual then speech embeddings when present, mark `COMPLETED`.  An `error`
result carries the raised message together with the in-memory `video` object
and the committed state at the point of the raise. -/
def embedAndComplete (env : PipelineEnv) (video_id : String) (now : Nat)
    (video : VideoRec) (keyframes : List Keyframe) (segments : List Segment)
    (st : AppState) : Except (String × VideoRec × AppState) AppState :=
  let video1 := mark_processing video VideoStatus.embedding now
  let st1 := commitVideo video1 st
  let visualStep : Except (String × VideoRec × AppState) AppState :=
    if keyframes.isEmpty then .ok st1
    else
      match env.embed_images with
      | .error e => .error (e, video1, st1)
      | .ok visual_embeddings =>
          match env.upsert_visual with
          | .error e => .error (e, video1, st1)
          | .ok _ =>
              .ok { st1 with
                    vstore := store_visual_embeddings video_id keyframes
                        visual_embeddings st1.vstore }
  match visualStep with
  | .error err => .error err
  | .ok st2 =>
      let speechStep : Except (String × VideoRec × AppState) AppState :=
        if segments.isEmpty then .ok st2
        else
          match env.embed_texts with
          | .error e => .error (e, video1, st2)
          | .ok speech_embeddings =>
              match env.upsert_speech with
              | .error e => .error (e, video1, st2)
              | .ok _ =>
                  .ok { st2 with
                        vstore := store_speech_embeddings video_id segments
                            speech_embeddings st2.vstore }
      match speechStep with
      | .error err => .error err
      | .ok st3 =>
          let video2 := mark_completed video1 now
          .ok (commitVideo video2 st3)

/-- Body of the `try` block of `process_video_task` (videos.py lines 253-315),
starting after the video row has been fetched.  An `error` result is an
exception escaping to the `except` handler, carrying the in-memory `video`
object and the committed state at that point. -/
def processBody (env : PipelineEnv) (video_id : String) (now : Nat)
    (video : VideoRec) (st : AppState) :
    Except (String × VideoRec × AppState) AppState :=
  match env.init_collections with
  | .error e => .error (e, video, st)
  | .ok _ =>
  let video1 := mark_processing video VideoStatus.extracting_frames now
  let st1 := commitVideo video1 st
  match env.extract_keyframes with
  | .error e => .error (e, video1, st1)
  | .ok keyframes =>
  let video2 := { video1 with keyframe_count := keyframes.length }
  match env.count_frames with
  | .error e => .error (e, video2, st1)
  | .ok nframes =>
  let video3 := { video2 with frame_count := nframes }
  let st2 := commitVideo video3 st1
  let video4 := mark_processing video3 VideoStatus.extracting_audio now
  let st3 := commitVideo video4 st2
  if has_audio env.audio_probe then
    match env.extract_audio with
    | .error e => .error (e, video4, st3)
    | .ok _audio_path =>
    let video5 := mark_processing video4 VideoStatus.transcribing now
    let st4 := commitVideo video5 st3
    match env.transcribe with
    | .error e => .error (e, video5, st4)
    | .ok segments =>
    let st5 := commitVideoAndTranscripts video5 (segments.map (mkTranscript video_id)) st4
    embedAndComplete env video_id now video5 keyframes segments st5
  else
    embedAndComplete env video_id now video4 keyframes [] st3

/-- `process_video_task` (videos.py lines 233-327).  The whole body runs under
`try`; the `except Exception` handler marks the video `FAILED` with the
stringified error and commits.  A top-level `Except.error` result would mean
an exception escaping the task to its caller. -/
def process_video_task (env : PipelineEnv) (video_id : String) (now : Nat)
    (st : AppState) : Except String AppState :=
  match findVideoRow video_id st.videos with
  | none => .ok st
  | some video =>
      match processBody env video_id now video st with
      | .ok st1 => .ok st1
      | .error (e, video1, st1) => .ok (commitVideo (mark_failed video1 e now) st1)

/-! ## Video deletion: `delete_video` (videos.py lines 205-230) -/

/-- `delete_video`.  The source deletes the vector-store points, then runs
`await session.execute(select(Transcript).where(Transcript.video_id ==
video_id))` — a query with no delete, so the transcripts table is left
untouched — then deletes the video row and commits. -/
def delete_video (video_id : String) (st : AppState) : Except String AppState :=
  match findVideoRow video_id st.videos with
  | none => .error "Video not found"
  | some _ =>
      let st1 := { st with vstore := delete_video_embeddings video_id st.vstore }
      let st2 := { st1 with videos := st1.videos.filter (fun v => decide (v.id ≠ video_id)) }
      .ok st2

/-- Transcript rows currently stored for a video id. -/
def transcriptsFor (video_id : String) (st : AppState) : List TranscriptRec :=
  st.transcripts.filter (fun t => decide (t.video_id = video_id))

/-- Points of a collection whose payload `video_id` matches. -/
def pointsFor (video_id : String) (coll : List Point) : List Point :=
  coll.filter (fun p => decide (p.payload.videoId = video_id))

/-! ## Hybrid retrieval: `search_videos` (api/search.py lines 21-98) -/

/-- Search type enum (schemas/search.py lines 8-13). -/
inductive SearchType where
  | visual
  | speech
  | hybrid
deriving DecidableEq, Repr

/-- A candidate dict as returned by `VectorStoreService.search_visual` /
`search_speech` (vector_store.py lines 178-213): payload fields plus the raw
similarity `score` and the modality tag `type`. -/
structure Candidate where
  video_id : String
  timestamp : ℚ
  end_timestamp : Option ℚ
  text : Option String
  frame_path : Option String
  score : ℚ
  ctype : String
deriving DecidableEq, Repr

/-- `SearchResult` response schema (schemas/search.py lines 25-35). -/
structure SearchResult where
  video_id : String
  video_filename : String
  timestamp : ℚ
  end_timestamp : Option ℚ
  score : ℚ
  result_type : String
  transcript_text : Option String
  frame_path : Option String
deriving DecidableEq, Repr

/-- Construction of one response item (search.py lines 78-89): the exposed
`score` is `r["score"]` taken from the candidate unchanged. -/
def mkSearchResult (r : Candidate) (v : VideoRec) : SearchResult :=
  { video_id := r.video_id
    video_filename := v.filename
    timestamp := r.timestamp
    end_timestamp := r.end_timestamp
    score := r.score
    result_type := r.ctype
    transcript_text := r.text
    frame_path := r.frame_path }

/-- `search_videos` (search.py lines 21-98) given the candidate lists returned
by the two vector-index queries (each already limited and thresholded by
Qdrant) and the current `videos` table.  Candidates are unioned according to
the search type, sorted descending by raw score (`results.sort(key=score,
reverse=True)`, a stable sort), truncated to `limit`, then enriched; a result
whose video row is missing is dropped. -/
def search_videos (search_type : SearchType) (limit : Nat)
    (visual_results speech_results : List Candidate)
    (videos : List VideoRec) : List SearchResult :=
  let results :=
    (if search_type = SearchType.visual ∨ search_type = SearchType.hybrid then
      visual_results else []) ++
    (if search_type = SearchType.speech ∨ search_type = SearchType.hybrid then
      speech_results else [])
  let sorted := results.mergeSort (fun a b => decide (b.score ≤ a.score))
  let limited := sorted.take limit
  limited.filterMap (fun r => (findVideoRow r.video_id videos).map (mkSearchResult r))

/-! ## Auxiliary statement material -/

/-- One application of a status-mutating operation of `Video`, paired with the
clock tick at which it runs. -/
inductive MarkOp where
  | processing (status : VideoStatus)
  | completed
  | failed (error : String)
deriving DecidableEq, Repr

/-- Dispatch of one `MarkOp` to the corresponding `Video` method. -/
def applyMarkOp (v : VideoRec) (now : Nat) : MarkOp → VideoRec
  | .processing s => mark_processing v s now
  | .completed => mark_completed v now
  | .failed e => mark_failed v e now

/-- A sequence of status-mutating operations applied in order. -/
def applyMarkOps (v : VideoRec) : List (MarkOp × Nat) → VideoRec
  | [] => v
  | (op, t) :: rest => applyMarkOps (applyMarkOp v t op) rest

/-- The spec's record invariant: `error_message` is non-null iff the status is
`FAILED`, and `processed_at` is non-null iff the status is `COMPLETED`. -/
def statusInv (v : VideoRec) : Prop :=
  (v.error_message ≠ none ↔ v.status = VideoStatus.failed) ∧
  (v.processed_at ≠ none ↔ v.status = VideoStatus.completed)

/-- Operation sequences the orchestrator actually issues: `mark_processing`
only with non-terminal statuses, and a terminal operation (`mark_completed` or
`mark_failed`) only as the last element. -/
def wellFormedOps : List (MarkOp × Nat) → Bool
  | [] => true
  | [(.completed, _)] => true
  | [(.failed _, _)] => true
  | (.processing s, _) :: rest =>
      (decide (s ≠ VideoStatus.completed) && decide (s ≠ VideoStatus.failed)) &&
        wellFormedOps rest
  | _ => false

/-- Position of each status in the fixed pipeline order; both terminal states
share the top rank. -/
def statusRank : VideoStatus → Nat
  | .pending => 0
  | .processing => 1
  | .extracting_frames => 2
  | .extracting_audio => 3
  | .transcribing => 4
  | .embedding => 5
  | .completed => 6
  | .failed => 6

/-- Terminal statuses. -/
def isTerminal : VideoStatus → Bool
  | .completed => true
  | .failed => true
  | _ => false

/-- The status sequences (consecutive duplicates collapsed) that a single
pipeline run can commit, starting from `PENDING`: the full order with
`TRANSCRIBING` optional, cut short by `FAILED` after any prefix. -/
def allowedTraces : List (List VideoStatus) :=
  [[.pending],
   [.pending, .extracting_frames, .extracting_audio, .embedding, .completed],
   [.pending, .extracting_frames, .extracting_audio, .transcribing, .embedding, .completed],
   [.pending, .failed],
   [.pending, .extracting_frames, .failed],
   [.pending, .extracting_frames, .extracting_audio, .failed],
   [.pending, .extracting_frames, .extracting_audio, .transcribing, .failed],
   [.pending, .extracting_frames, .extracting_audio, .embedding, .failed],
   [.pending, .extracting_frames, .extracting_audio, .transcribing, .embedding, .failed]]

/-- Committed status history produced by one pipeline run. -/
def runTrace (env : PipelineEnv) (video_id : String) (now : Nat) (st : AppState) :
    List VideoStatus :=
  match process_video_task env video_id now st with
  | .ok st1 => st1.trace
  | .error _ => []

/-- Resulting application state of one pipeline run (the input state if the
task were to escape with an exception). -/
def runState (env : PipelineEnv) (video_id : String) (now : Nat) (st : AppState) :
    AppState :=
  match process_video_task env video_id now st with
  | .ok st1 => st1
  | .error _ => st

/-! ## Concrete fixtures used by closed theorems -/

/-- A freshly registered example video row. -/
def exVideo : VideoRec := freshVideo "v1" "a.mp4" "/data/a.mp4" 0

/-- One stored transcript row for `exVideo`. -/
def exTranscript : TranscriptRec :=
  { video_id := "v1", text := "hello world", start_time := 0, end_time := 2,
    confidence := none, language := some "en" }

/-- One stored visual point for `exVideo`. -/
def exVisualPoint : Point :=
  { id := generate_point_id "v1" 0 "visual", vector := [1, 0],
    payload := Payload.visual "v1" "frames/v1/f0.jpg" 1 0 }

/-- One stored speech point for `exVideo`. -/
def exSpeechPoint : Point :=
  { id := generate_point_id "v1" 0 "speech", vector := [0, 1],
    payload := Payload.speech "v1" "hello world" 0 2 }

/-- Store state holding `exVideo` fully processed: one transcript row and one
point in each vector collection. -/
def exState : AppState :=
  { videos := [exVideo], transcripts := [exTranscript],
    vstore := { visual := [exVisualPoint], speech := [exSpeechPoint] },
    trace := [] }

/-- Store state holding only the pending `exVideo` row. -/
def exStateFresh : AppState :=
  { videos := [exVideo], transcripts := [], vstore := { visual := [], speech := [] },
    trace := [] }

/-- An example keyframe dict. -/
def exKeyframe : Keyframe :=
  { frame_path := "frames/v1/f0.jpg", timestamp := 1, scene_index := some 0 }

/-- An example transcript segment dict. -/
def exSegment : Segment :=
  { text := "hello world", start_time := 0, end_time := 2,
    confidence := some (9 / 10), language := some "en" }

/-- Environment in which every external call of the pipeline succeeds. -/
def exEnvOk : PipelineEnv :=
  { init_collections := .ok ()
    extract_keyframes := .ok [exKeyframe]
    count_frames := .ok 100
    audio_probe := .ok "audio"
    extract_audio := .ok "audio/v1/audio.wav"
    transcribe := .ok [exSegment]
    embed_images := .ok [[1, 0]]
    embed_texts := .ok [[0, 1]]
    upsert_visual := .ok ()
    upsert_speech := .ok () }

/-- Environment in which keyframe extraction raises. -/
def exEnvKeyframesFail : PipelineEnv := { exEnvOk with extract_keyframes := .error "boom" }

/-- Environment in which the `ffprobe` audio probe exits non-zero. -/
def exEnvProbeFail : PipelineEnv := { exEnvOk with audio_probe := .error "probe exited 1" }

/-- An example visual search candidate whose raw score is exactly the
calibration midpoint 0.18. -/
def exCandidate : Candidate :=
  { video_id := "v1", timestamp := 3, end_timestamp := none, text := none,
    frame_path := some "frames/v1/f0.jpg", score := 0.18, ctype := "visual" }

/-! # Theorems -/

/-! ## Score calibration lemmas -/

/-- The un-clamped logistic value is strictly between 0 and 1. -/
theorem logistic_mem_Ioo (y : ℝ) : 1 / (1 + Real.exp (-y)) ∈ Set.Ioo (0 : ℝ) 1 := by
  constructor
  · positivity
  · rw [div_lt_one (by positivity)]
    have := Real.exp_pos (-y)
    linarith

/-- Monotonicity of the un-clamped logistic in the raw score. -/
theorem logistic_mono {a b : ℝ} (h : a ≤ b) :
    1 / (1 + Real.exp (-((a - 0.18) * 12))) ≤ 1 / (1 + Real.exp (-((b - 0.18) * 12))) := by
  apply one_div_le_one_div_of_le
  · positivity
  · have hx : -((b - 0.18) * 12) ≤ -((a - 0.18) * 12) := by nlinarith
    have := Real.exp_le_exp.mpr hx
    linarith

/-- The rescale function evaluated at the configured midpoint is exactly 1/2. -/
theorem rescale_at_midpoint : rescale_siglip_score 0.18 = 1 / 2 := by
  show max 0 (min 1 (1 / (1 + Real.exp (-(((0.18 : ℝ) - 0.18) * 12))))) = 1 / 2
  norm_num [Real.exp_zero]

/-- C4: `rescale_siglip_score` is monotone non-decreasing, maps the configured
midpoint raw score 0.18 to 0.5, always lands in [0, 1], and is literally the
logistic form `1 / (1 + exp(-(raw - midpoint) * steepness))` clamped to
[0, 1]. -/
theorem rescale_monotone_midpoint_range_form :
    (∀ a b : ℝ, a < b → rescale_siglip_score a ≤ rescale_siglip_score b) ∧
    rescale_siglip_score 0.18 = 1 / 2 ∧
    (∀ x : ℝ, 0 ≤ rescale_siglip_score x ∧ rescale_siglip_score x ≤ 1) ∧
    (∀ x : ℝ, rescale_siglip_score x =
      max 0 (min 1 (1 / (1 + Real.exp (-((x - 0.18) * 12)))))) := by
  refine ⟨?_, rescale_at_midpoint, ?_, fun x => rfl⟩
  · intro a b hab
    show max 0 (min 1 _) ≤ max 0 (min 1 _)
    exact max_le_max le_rfl (min_le_min le_rfl (logistic_mono hab.le))
  · intro x
    refine ⟨le_max_left _ _, max_le (by norm_num) (min_le_left _ _)⟩

/-- Closed instantiation of the monotonicity conjunct of C4 at raw scores 0
and 1. -/
theorem rescale_monotone_midpoint_range_form_witness :
    (0 : ℝ) < 1 ∧ rescale_siglip_score 0 ≤ rescale_siglip_score 1 :=
  ⟨zero_lt_one, rescale_monotone_midpoint_range_form.1 0 1 zero_lt_one⟩

/-! ## Video deletion: C1 -/

/-- C1 evidence: deleting `exVideo` — a video with one transcript row and one
point in each vector collection — removes every vector point carrying the id
but leaves the transcript row in place, because the handler's transcript
statement is a `select`, not a delete. -/
theorem delete_video_leaves_transcript_rows :
    (delete_video "v1" exState).map (fun st1 =>
      ((transcriptsFor "v1" st1).length,
       (pointsFor "v1" st1.vstore.visual).length,
       (pointsFor "v1" st1.vstore.speech).length)) = Except.ok (1, 0, 0) := by
  rfl

/-! ## Record-status invariant: C7 -/

/-- C7 counterexample: the mutator methods enforce nothing.  Applying
`mark_failed` and then `mark_completed` to a fresh `PENDING` video yields
status `COMPLETED` with a non-null `error_message`, and
`mark_processing(FAILED)` yields status `FAILED` with a null `error_message`;
both violate the claimed iff. -/
theorem mark_ops_violate_status_invariant :
    (applyMarkOps (freshVideo "v1" "a.mp4" "/data/a.mp4" 0)
        [(MarkOp.failed "boom", 1), (MarkOp.completed, 2)]).status =
      VideoStatus.completed ∧
    (applyMarkOps (freshVideo "v1" "a.mp4" "/data/a.mp4" 0)
        [(MarkOp.failed "boom", 1), (MarkOp.completed, 2)]).error_message =
      some "boom" ∧
    (applyMarkOps (freshVideo "v1" "a.mp4" "/data/a.mp4" 0)
        [(MarkOp.processing VideoStatus.failed, 1)]).status = VideoStatus.failed ∧
    (applyMarkOps (freshVideo "v1" "a.mp4" "/data/a.mp4" 0)
        [(MarkOp.processing VideoStatus.failed, 1)]).error_message = none := by
  decide

/-- Strengthened induction helper for C7: from any record with clean error and
processed fields and a non-terminal status, a well-formed operation sequence
ends in a record satisfying the invariant. -/
theorem statusInv_of_clean (v : VideoRec) (ops : List (MarkOp × Nat))
    (he : v.error_message = none) (hp : v.processed_at = none)
    (hc : v.status ≠ VideoStatus.completed) (hf : v.status ≠ VideoStatus.failed)
    (hw : wellFormedOps ops = true) : statusInv (applyMarkOps v ops) := by
  induction ops generalizing v with
  | nil =>
      simp only [applyMarkOps, statusInv, he, hp]
      simp [hc, hf]
  | cons hd tl ih =>
      obtain ⟨op, t⟩ := hd
      cases op with
      | processing s =>
          simp only [wellFormedOps, Bool.and_eq_true, decide_eq_true_eq] at hw
          obtain ⟨⟨hs1, hs2⟩, hw⟩ := hw
          simp only [applyMarkOps, applyMarkOp, mark_processing]
          exact ih _ he hp hs1 hs2 hw
      | completed =>
          cases tl with
          | nil =>
              simp [applyMarkOps, applyMarkOp, mark_completed, statusInv, he]
          | cons hd2 tl2 =>
              simp [wellFormedOps] at hw
      | failed e =>
          cases tl with
          | nil =>
              simp [applyMarkOps, applyMarkOp, mark_failed, statusInv, hp]
          | cons hd2 tl2 =>
              simp [wellFormedOps] at hw

/-- C7 (amended): for every video reachable from a freshly created `PENDING`
record by a sequence of the status-mutating operations in which
`mark_processing` is only given non-terminal statuses and a terminal
operation appears only last — the sequences the orchestrator issues —
`error_message` is non-null iff status is `FAILED` and `processed_at` is
non-null iff status is `COMPLETED`. -/
theorem status_invariant_for_pipeline_sequences
    (id filename path : String) (t0 : Nat) (ops : List (MarkOp × Nat))
    (hw : wellFormedOps ops = true) :
    statusInv (applyMarkOps (freshVideo id filename path t0) ops) :=
  statusInv_of_clean _ ops rfl rfl (by simp [freshVideo]) (by simp [freshVideo]) hw

/-- Closed instantiation of the amended C7 at a two-operation pipeline-shaped
sequence. -/
theorem status_invariant_for_pipeline_sequences_witness :
    wellFormedOps [(MarkOp.processing VideoStatus.extracting_frames, 1),
        (MarkOp.completed, 2)] = true ∧
    statusInv (applyMarkOps (freshVideo "v1" "a.mp4" "/data/a.mp4" 0)
      [(MarkOp.processing VideoStatus.extracting_frames, 1), (MarkOp.completed, 2)]) :=
  ⟨by decide,
   status_invariant_for_pipeline_sequences "v1" "a.mp4" "/data/a.mp4" 0 _ (by decide)⟩

/-! ## Vector upsert lemmas (C3, C10) -/

/-- After upserting `p`, a point with id `p.id` is present. -/
theorem self_mem_map_id_upsertPoint (p : Point) (coll : List Point) :
    p.id ∈ (upsertPoint p coll).map Point.id := by
  induction coll with
  | nil => simp [upsertPoint]
  | cons q rest ih =>
      by_cases hq : q.id = p.id
      · simp [upsertPoint, hq]
      · simp only [upsertPoint, if_neg hq, List.map_cons, List.mem_cons]
        exact Or.inr ih

/-- Upserting never removes an id from a collection. -/
theorem mem_map_id_upsertPoint {x : String} (p : Point) (coll : List Point)
    (h : x ∈ coll.map Point.id) : x ∈ (upsertPoint p coll).map Point.id := by
  induction coll with
  | nil => simp at h
  | cons q rest ih =>
      rw [List.map_cons] at h
      rcases List.mem_cons.mp h with hx | hx
      · by_cases hq : q.id = p.id
        · subst hx
          simp [upsertPoint, hq]
        · simp only [upsertPoint, if_neg hq, List.map_cons, List.mem_cons]
          exact Or.inl hx
      · by_cases hq : q.id = p.id
        · simp only [upsertPoint, if_pos hq, List.map_cons, List.mem_cons]
          exact Or.inr hx
        · simp only [upsertPoint, if_neg hq, List.map_cons, List.mem_cons]
          exact Or.inr (ih hx)

/-- Upserting a point whose id is already present replaces in place: the id
list of the collection is unchanged. -/
theorem map_id_upsertPoint_of_mem (p : Point) (coll : List Point)
    (h : p.id ∈ coll.map Point.id) :
    (upsertPoint p coll).map Point.id = coll.map Point.id := by
  induction coll with
  | nil => simp at h
  | cons q rest ih =>
      by_cases hq : q.id = p.id
      · simp [upsertPoint, hq]
      · have h' : p.id ∈ rest.map Point.id := by
          rw [List.map_cons] at h
          rcases List.mem_cons.mp h with hx | hx
          · exact absurd hx.symm hq
          · exact hx
        simp [upsertPoint, hq, ih h']

/-- Batch upsert never removes an id. -/
theorem mem_map_id_upsertPoints {x : String} (ps : List Point) (coll : List Point)
    (h : x ∈ coll.map Point.id) : x ∈ (upsertPoints coll ps).map Point.id := by
  induction ps generalizing coll with
  | nil => simpa [upsertPoints] using h
  | cons p rest ih =>
      exact ih (upsertPoint p coll) (mem_map_id_upsertPoint p coll h)

/-- After a batch upsert, the id of every upserted point is present. -/
theorem mem_ids_after_upsertPoints (ps : List Point) (coll : List Point)
    (p : Point) (hp : p ∈ ps) : p.id ∈ (upsertPoints coll ps).map Point.id := by
  induction ps generalizing coll with
  | nil => simp at hp
  | cons q rest ih =>
      show p.id ∈ (upsertPoints (upsertPoint q coll) rest).map Point.id
      rcases List.mem_cons.mp hp with h | h
      · subst h
        exact mem_map_id_upsertPoints rest _ (self_mem_map_id_upsertPoint p coll)
      · exact ih _ h

/-- Batch-upserting points whose ids are all already present leaves the id
list of the collection unchanged. -/
theorem map_id_upsertPoints_of_all_mem (ps : List Point) (coll : List Point)
    (h : ∀ p ∈ ps, p.id ∈ coll.map Point.id) :
    (upsertPoints coll ps).map Point.id = coll.map Point.id := by
  induction ps generalizing coll with
  | nil => simp [upsertPoints]
  | cons p rest ih =>
      have h1 : p.id ∈ coll.map Point.id := h p (by simp)
      have heq := map_id_upsertPoint_of_mem p coll h1
      show (upsertPoints (upsertPoint p coll) rest).map Point.id = coll.map Point.id
      rw [ih (upsertPoint p coll) (fun q hq => by rw [heq]; exact h q (by simp [hq])), heq]

/-- Batch-upserting points whose ids are all already present does not change
the number of stored points. -/
theorem length_upsertPoints_of_all_mem (ps : List Point) (coll : List Point)
    (h : ∀ p ∈ ps, p.id ∈ coll.map Point.id) :
    (upsertPoints coll ps).length = coll.length := by
  have := congrArg List.length (map_id_upsertPoints_of_all_mem ps coll h)
  simpa using this

/-- C3: `generate_point_id` is a pure function of `(video_id, index, tag)` —
equal arguments give equal ids — and re-storing the same video with the same
keyframe/segment and embedding lists upserts only ids already present, so the
point count of each collection does not grow; each store call touches only its
own collection. -/
theorem point_id_deterministic_restore_idempotent :
    (∀ v₁ v₂ : String, ∀ i₁ i₂ : Nat, ∀ t₁ t₂ : String,
        v₁ = v₂ → i₁ = i₂ → t₁ = t₂ →
        generate_point_id v₁ i₁ t₁ = generate_point_id v₂ i₂ t₂) ∧
    (∀ video_id K E vs, ∀ p ∈ visualPoints video_id K E,
        p.id ∈ (store_visual_embeddings video_id K E vs).visual.map Point.id) ∧
    (∀ video_id K E vs,
        (store_visual_embeddings video_id K E
            (store_visual_embeddings video_id K E vs)).visual.length =
          (store_visual_embeddings video_id K E vs).visual.length) ∧
    (∀ video_id K E vs, (store_visual_embeddings video_id K E vs).speech = vs.speech) ∧
    (∀ video_id S E vs, ∀ p ∈ speechPoints video_id S E,
        p.id ∈ (store_speech_embeddings video_id S E vs).speech.map Point.id) ∧
    (∀ video_id S E vs,
        (store_speech_embeddings video_id S E
            (store_speech_embeddings video_id S E vs)).speech.length =
          (store_speech_embeddings video_id S E vs).speech.length) ∧
    (∀ video_id S E vs, (store_speech_embeddings video_id S E vs).visual = vs.visual) := by
  refine ⟨?_, ?_, ?_, fun _ _ _ _ => rfl, ?_, ?_, fun _ _ _ _ => rfl⟩
  · intro v₁ v₂ i₁ i₂ t₁ t₂ hv hi ht
    subst hv; subst hi; subst ht; rfl
  · intro vid K E vs p hp
    exact mem_ids_after_upsertPoints _ _ p hp
  · intro vid K E vs
    exact length_upsertPoints_of_all_mem _ _
      (fun p hp => mem_ids_after_upsertPoints _ _ p hp)
  · intro vid S E vs p hp
    exact mem_ids_after_upsertPoints _ _ p hp
  · intro vid S E vs
    exact length_upsertPoints_of_all_mem _ _
      (fun p hp => mem_ids_after_upsertPoints _ _ p hp)

/-- Closed instantiation of C3 at a concrete video with one keyframe. -/
theorem point_id_deterministic_restore_idempotent_witness :
    generate_point_id "v1" 0 "visual" = generate_point_id "v1" 0 "visual" ∧
    exVisualPoint.id ∈
      (store_visual_embeddings "v1" [exKeyframe] [[1, 0]]
          { visual := [], speech := [] }).visual.map Point.id ∧
    (store_visual_embeddings "v1" [exKeyframe] [[1, 0]]
        (store_visual_embeddings "v1" [exKeyframe] [[1, 0]]
          { visual := [], speech := [] })).visual.length =
      (store_visual_embeddings "v1" [exKeyframe] [[1, 0]]
        { visual := [], speech := [] }).visual.length :=
  ⟨point_id_deterministic_restore_idempotent.1 "v1" "v1" 0 0 "visual" "visual" rfl rfl rfl,
   point_id_deterministic_restore_idempotent.2.1 "v1" [exKeyframe] [[1, 0]]
     { visual := [], speech := [] } exVisualPoint (by decide),
   point_id_deterministic_restore_idempotent.2.2.1 "v1" [exKeyframe] [[1, 0]]
     { visual := [], speech := [] }⟩

/-! ## Positional pairing of keyframes and embeddings (C10) -/

/-- Length of the point list built from a zipped keyframe/embedding list. -/
theorem visualPointsFrom_length (vid : String) (n : Nat)
    (l : List (Keyframe × List ℚ)) : (visualPointsFrom vid n l).length = l.length := by
  induction l generalizing n with
  | nil => rfl
  | cons h t ih =>
      obtain ⟨kf, e⟩ := h
      simp [visualPointsFrom, ih]

/-- Element-wise description of the point list built from a zipped list. -/
theorem visualPointsFrom_getElem? (vid : String) (n i : Nat)
    (l : List (Keyframe × List ℚ)) :
    (visualPointsFrom vid n l)[i]? = l[i]?.map (fun pr =>
      { id := generate_point_id vid (n + i) "visual"
        vector := pr.2
        payload := Payload.visual vid pr.1.frame_path pr.1.timestamp
            (pr.1.scene_index.getD (n + i)) }) := by
  induction l generalizing n i with
  | nil => simp [visualPointsFrom]
  | cons h t ih =>
      obtain ⟨kf, e⟩ := h
      cases i with
      | zero => simp [visualPointsFrom]
      | succ j =>
          have h1 : n + 1 + j = n + (j + 1) := by omega
          have h2 := ih (n + 1) j
          rw [h1] at h2
          simpa [visualPointsFrom] using h2

/-- `embed_images_batch` equals a straight filterMap over the paths: batching
is invisible and failed loads are silently dropped. -/
theorem embed_images_batch_eq_filterMap (env : EmbedEnv) (paths : List String) :
    embed_images_batch env paths =
      paths.filterMap (fun p => (env.load p).map env.embedImage) := by
  suffices h : ∀ n (paths : List String), paths.length ≤ n →
      embed_images_batch env paths =
        paths.filterMap (fun p => (env.load p).map env.embedImage) from
    h paths.length paths le_rfl
  intro n
  induction n with
  | zero =>
      intro paths hp
      have : paths = [] := List.eq_nil_of_length_eq_zero (Nat.le_zero.mp hp)
      subst this
      simp [embed_images_batch]
  | succ n ih =>
      intro paths hp
      cases paths with
      | nil => simp [embed_images_batch]
      | cons p rest =>
          rw [embed_images_batch]
          rw [ih ((p :: rest).drop 16) (by simp at hp ⊢; omega)]
          rw [List.map_filterMap]
          rw [← List.filterMap_append, List.take_append_drop]

/-- C10: `store_visual_embeddings` upserts exactly `min |K| |E|` points, the
`i`-th pairing keyframe `K[i]` with embedding `E[i]` positionally under the
deterministic visual id for index `i`; and `embed_images_batch` silently
omits failed loads, so its output can be shorter than the keyframe list and
positional pairing then shifts every later keyframe onto a different frame's
embedding. -/
theorem store_visual_positional_pairing :
    (∀ vid K E, (visualPoints vid K E).length = min K.length E.length) ∧
    (∀ vid (K : List Keyframe) (E : List (List ℚ)) (i : Nat) kf e,
        K[i]? = some kf → E[i]? = some e →
        (visualPoints vid K E)[i]? = some
          { id := generate_point_id vid i "visual"
            vector := e
            payload := Payload.visual vid kf.frame_path kf.timestamp
              (kf.scene_index.getD i) }) ∧
    (∀ env paths, embed_images_batch env paths =
        paths.filterMap (fun p => (env.load p).map env.embedImage)) ∧
    (∀ vid K E vs, (store_visual_embeddings vid K E vs).visual =
        upsertPoints vs.visual (visualPoints vid K E)) := by
  refine ⟨?_, ?_, embed_images_batch_eq_filterMap, fun _ _ _ _ => rfl⟩
  · intro vid K E
    simp [visualPoints, visualPointsFrom_length, List.length_zip]
  · intro vid K E i kf e hK hE
    obtain ⟨hiK, hgK⟩ := List.getElem?_eq_some_iff.mp hK
    obtain ⟨hiE, hgE⟩ := List.getElem?_eq_some_iff.mp hE
    have hiz : i < (K.zip E).length := by
      rw [List.length_zip]
      omega
    have hz : (K.zip E)[i]? = some (kf, e) := by
      rw [List.getElem?_eq_getElem hiz, List.getElem_zip, hgK, hgE]
    rw [visualPoints, visualPointsFrom_getElem?, hz]
    simp

/-- Closed instantiation of C10: a call with two keyframes but a single
embedding builds exactly one point, pairing keyframe 0 with that embedding. -/
theorem store_visual_positional_pairing_witness :
    ([exKeyframe, { frame_path := "frames/v1/f1.jpg", timestamp := 2, scene_index := some 1 }] :
        List Keyframe)[0]? = some exKeyframe ∧
    ([[1, 0]] : List (List ℚ))[0]? = some [1, 0] ∧
    (visualPoints "v1"
        [exKeyframe, { frame_path := "frames/v1/f1.jpg", timestamp := 2, scene_index := some 1 }]
        [[1, 0]])[0]? = some
      { id := generate_point_id "v1" 0 "visual"
        vector := [1, 0]
        payload := Payload.visual "v1" exKeyframe.frame_path exKeyframe.timestamp
          (exKeyframe.scene_index.getD 0) } :=
  ⟨rfl, rfl,
   store_visual_positional_pairing.2.1 "v1"
     [exKeyframe, { frame_path := "frames/v1/f1.jpg", timestamp := 2, scene_index := some 1 }]
     [[1, 0]] 0 exKeyframe [1, 0] rfl rfl⟩

/-! ## Hybrid retrieval: C5 and C2 -/

/-- C5: for any search type and limit `L`, given candidate lists of length at
most `L` from each index query, the response list has length at most `L` and
is sorted descending by score. -/
theorem search_results_sorted_truncated (stype : SearchType) (limit : Nat)
    (visual_results speech_results : List Candidate) (videos : List VideoRec)
    (hv : visual_results.length ≤ limit) (hs : speech_results.length ≤ limit) :
    (search_videos stype limit visual_results speech_results videos).length ≤ limit ∧
    List.Pairwise (fun a b : SearchResult => b.score ≤ a.score)
      (search_videos stype limit visual_results speech_results videos) := by
  simp only [search_videos]
  constructor
  · refine le_trans (List.length_filterMap_le _ _) ?_
    rw [List.length_take]
    exact min_le_left _ _
  · have htrans : ∀ a b c : Candidate, decide (b.score ≤ a.score) = true →
        decide (c.score ≤ b.score) = true → decide (c.score ≤ a.score) = true := by
      intro a b c h1 h2
      simp only [decide_eq_true_eq] at h1 h2 ⊢
      exact le_trans h2 h1
    have htot : ∀ a b : Candidate,
        (decide (b.score ≤ a.score) || decide (a.score ≤ b.score)) = true := by
      intro a b
      simpa using le_total b.score a.score
    have hsorted := List.sorted_mergeSort htrans htot
      ((if stype = SearchType.visual ∨ stype = SearchType.hybrid then
          visual_results else []) ++
       (if stype = SearchType.speech ∨ stype = SearchType.hybrid then
          speech_results else []))
    have hsorted' : List.Pairwise (fun a b : Candidate => b.score ≤ a.score)
        (((if stype = SearchType.visual ∨ stype = SearchType.hybrid then
            visual_results else []) ++
          (if stype = SearchType.speech ∨ stype = SearchType.hybrid then
            speech_results else [])).mergeSort
          (fun a b => decide (b.score ≤ a.score))) :=
      hsorted.imp (fun h => by simpa using h)
    have htake := List.Pairwise.sublist (List.take_sublist limit _) hsorted'
    rw [List.pairwise_filterMap]
    refine htake.imp ?_
    intro a b h rA hrA rB hrB
    obtain ⟨vA, hvA, hmkA⟩ := Option.map_eq_some'.mp (Option.mem_def.mp hrA)
    obtain ⟨vB, hvB, hmkB⟩ := Option.map_eq_some'.mp (Option.mem_def.mp hrB)
    rw [← hmkA, ← hmkB]
    exact h

/-- Closed instantiation of C5: a hybrid query with one candidate per
modality and limit 5. -/
theorem search_results_sorted_truncated_witness :
    ([exCandidate] : List Candidate).length ≤ 5 ∧
    ([{ video_id := "v1", timestamp := 0, end_timestamp := some 2,
        text := some "hello world", frame_path := none, score := 3 / 10,
        ctype := "speech" }] : List Candidate).length ≤ 5 ∧
    (search_videos SearchType.hybrid 5 [exCandidate]
        [{ video_id := "v1", timestamp := 0, end_timestamp := some 2,
           text := some "hello world", frame_path := none, score := 3 / 10,
           ctype := "speech" }] [exVideo]).length ≤ 5 ∧
    List.Pairwise (fun a b : SearchResult => b.score ≤ a.score)
      (search_videos SearchType.hybrid 5 [exCandidate]
        [{ video_id := "v1", timestamp := 0, end_timestamp := some 2,
           text := some "hello world", frame_path := none, score := 3 / 10,
           ctype := "speech" }] [exVideo]) :=
  ⟨by decide, by decide,
   (search_results_sorted_truncated SearchType.hybrid 5 _ _ [exVideo]
     (by decide) (by decide)).1,
   (search_results_sorted_truncated SearchType.hybrid 5 _ _ [exVideo]
     (by decide) (by decide)).2⟩

/-- Evaluation of the retrieval engine on a single visual candidate over a
single stored video. -/
theorem search_example_eval :
    search_videos SearchType.visual 10 [exCandidate] [] [exVideo] =
      [mkSearchResult exCandidate exVideo] := by
  simp [search_videos, List.mergeSort_singleton, findVideoRow, exCandidate, exVideo,
    freshVideo]

/-- C2 counterexample: a visual search over a single stored candidate with raw
score 0.18 returns that raw score unchanged, yet the logistic rescale of 0.18
is 1/2 ≠ 0.18 — so the exposed score is not the rescaled one;
`rescale_siglip_score` is never applied on the search path. -/
theorem search_exposes_unrescaled_score :
    (search_videos SearchType.visual 10 [exCandidate] [] [exVideo]).map
        (fun r => ((r.score : ℚ) : ℝ)) = [((0.18 : ℚ) : ℝ)] ∧
    rescale_siglip_score ((0.18 : ℚ) : ℝ) ≠ ((0.18 : ℚ) : ℝ) := by
  constructor
  · rw [search_example_eval]
    simp [mkSearchResult, exCandidate]
  · have hc : ((0.18 : ℚ) : ℝ) = (0.18 : ℝ) := by norm_num
    rw [hc, rescale_at_midpoint]
    norm_num

/-- C2 (amended): every score exposed in the search response equals the raw
similarity score of the candidate it came from — no rescaling is applied
before exposure. -/
theorem search_scores_are_raw (stype : SearchType) (limit : Nat)
    (visual_results speech_results : List Candidate) (videos : List VideoRec)
    (r : SearchResult)
    (hr : r ∈ search_videos stype limit visual_results speech_results videos) :
    ∃ c : Candidate, (c ∈ visual_results ∨ c ∈ speech_results) ∧ r.score = c.score := by
  simp only [search_videos] at hr
  rw [List.mem_filterMap] at hr
  obtain ⟨c, hc, heq⟩ := hr
  obtain ⟨v, hv, hmk⟩ := Option.map_eq_some'.mp heq
  refine ⟨c, ?_, by rw [← hmk]; rfl⟩
  have hc2 : c ∈ ((if stype = SearchType.visual ∨ stype = SearchType.hybrid then
        visual_results else []) ++
      (if stype = SearchType.speech ∨ stype = SearchType.hybrid then
        speech_results else [])).mergeSort (fun a b => decide (b.score ≤ a.score)) :=
    (List.take_sublist limit _).subset hc
  have hc3 := (List.mergeSort_perm
    ((if stype = SearchType.visual ∨ stype = SearchType.hybrid then
        visual_results else []) ++
     (if stype = SearchType.speech ∨ stype = SearchType.hybrid then
        speech_results else []))
    (fun a b => decide (b.score ≤ a.score))).subset hc2
  rcases List.mem_append.mp hc3 with h | h
  · left
    by_cases hcond : stype = SearchType.visual ∨ stype = SearchType.hybrid
    · rwa [if_pos hcond] at h
    · rw [if_neg hcond] at h
      simp at h
  · right
    by_cases hcond : stype = SearchType.speech ∨ stype = SearchType.hybrid
    · rwa [if_pos hcond] at h
    · rw [if_neg hcond] at h
      simp at h

/-- Closed instantiation of the amended C2 at a concrete visual query. -/
theorem search_scores_are_raw_witness :
    mkSearchResult exCandidate exVideo ∈
      search_videos SearchType.visual 10 [exCandidate] [] [exVideo] ∧
    ∃ c : Candidate, (c ∈ [exCandidate] ∨ c ∈ ([] : List Candidate)) ∧
      (mkSearchResult exCandidate exVideo).score = c.score :=
  ⟨by rw [search_example_eval]; exact List.mem_singleton.mpr rfl,
   search_scores_are_raw SearchType.visual 10 [exCandidate] [] [exVideo]
     (mkSearchResult exCandidate exVideo)
     (by rw [search_example_eval]; exact List.mem_singleton.mpr rfl)⟩

/-! ## Record-store lookup lemmas -/

/-- Looking up a row right after committing it yields exactly that row. -/
theorem findVideoRow_upsert_self (v : VideoRec) (rows : List VideoRec) :
    findVideoRow v.id (upsertVideoRow v rows) = some v := by
  induction rows with
  | nil => simp [findVideoRow, upsertVideoRow]
  | cons r rest ih =>
      by_cases hq : r.id = v.id
      · simp [findVideoRow, upsertVideoRow, hq]
      · simp only [upsertVideoRow, if_neg hq]
        simpa [findVideoRow, List.find?_cons, hq] using ih

/-- A successful row lookup returns a row carrying the looked-up id. -/
theorem findVideoRow_eq_some_id {video_id : String} {rows : List VideoRec}
    {v : VideoRec} (h : findVideoRow video_id rows = some v) : v.id = video_id := by
  have := List.find?_some h
  simpa using this

/-! ## Pipeline failure containment: C6 -/

/-- C6: the pipeline task never re-raises — it returns normally for every
environment — and whenever the try-block body raises at any step, the task
performs exactly one more action: it commits the current video marked
`FAILED` with the stringified error, leaving the state reached at the raise
otherwise untouched, and the committed row is the failed one. -/
theorem pipeline_failure_contained :
    (∀ env video_id now st, ∃ st1,
        process_video_task env video_id now st = Except.ok st1) ∧
    (∀ env video_id now st video e video1 st1,
        findVideoRow video_id st.videos = some video →
        processBody env video_id now video st = Except.error (e, video1, st1) →
        process_video_task env video_id now st =
          Except.ok (commitVideo (mark_failed video1 e now) st1) ∧
        (mark_failed video1 e now).status = VideoStatus.failed ∧
        (mark_failed video1 e now).error_message = some e ∧
        findVideoRow video1.id
            (commitVideo (mark_failed video1 e now) st1).videos =
          some (mark_failed video1 e now)) := by
  constructor
  · intro env video_id now st
    cases hf : findVideoRow video_id st.videos with
    | none => exact ⟨st, by simp [process_video_task, hf]⟩
    | some video =>
        cases hb : processBody env video_id now video st with
        | ok st1 => exact ⟨st1, by simp [process_video_task, hf, hb]⟩
        | error x =>
            obtain ⟨e, video1, st1⟩ := x
            exact ⟨commitVideo (mark_failed video1 e now) st1,
              by simp [process_video_task, hf, hb]⟩
  · intro env video_id now st video e video1 st1 hf hb
    refine ⟨by simp [process_video_task, hf, hb], rfl, rfl, ?_⟩
    have hid : (mark_failed video1 e now).id = video1.id := rfl
    have := findVideoRow_upsert_self (mark_failed video1 e now) st1.videos
    rw [hid] at this
    exact this

/-- Closed instantiation of C6: keyframe extraction raises `"boom"` on a
pending video; the task returns normally with the `FAILED` row committed. -/
theorem pipeline_failure_contained_witness :
    findVideoRow "v1" exStateFresh.videos = some exVideo ∧
    processBody exEnvKeyframesFail "v1" 5 exVideo exStateFresh =
      Except.error ("boom", mark_processing exVideo VideoStatus.extracting_frames 5,
        commitVideo (mark_processing exVideo VideoStatus.extracting_frames 5) exStateFresh) ∧
    process_video_task exEnvKeyframesFail "v1" 5 exStateFresh =
      Except.ok (commitVideo
        (mark_failed (mark_processing exVideo VideoStatus.extracting_frames 5) "boom" 5)
        (commitVideo (mark_processing exVideo VideoStatus.extracting_frames 5) exStateFresh)) ∧
    (mark_failed (mark_processing exVideo VideoStatus.extracting_frames 5) "boom" 5).status =
      VideoStatus.failed :=
  ⟨rfl, rfl,
   (pipeline_failure_contained.2 exEnvKeyframesFail "v1" 5 exStateFresh exVideo "boom"
     (mark_processing exVideo VideoStatus.extracting_frames 5)
     (commitVideo (mark_processing exVideo VideoStatus.extracting_frames 5) exStateFresh)
     rfl rfl).1,
   (pipeline_failure_contained.2 exEnvKeyframesFail "v1" 5 exStateFresh exVideo "boom"
     (mark_processing exVideo VideoStatus.extracting_frames 5)
     (commitVideo (mark_processing exVideo VideoStatus.extracting_frames 5) exStateFresh)
     rfl rfl).2.1⟩

/-! ## Silent audio-probe failure: C9 -/

/-- Looking up the id of a just-committed row yields the committed row. -/
theorem findVideoRow_commit (v : VideoRec) (st : AppState) (vid : String)
    (h : v.id = vid) : findVideoRow vid (commitVideo v st).videos = some v := by
  have h1 := findVideoRow_upsert_self v st.videos
  rw [h] at h1
  exact h1

/-- C9: when the `ffprobe` audio probe raises, `has_audio` returns `false`
instead of propagating, so the run is literally indistinguishable from a run
over a silent video (the task result equals the one for empty probe output),
and — all other calls succeeding — the pipeline still reaches `COMPLETED`
having added no transcript row and left the speech collection untouched. -/
theorem probe_failure_indistinguishable_from_silent
    (env : PipelineEnv) (video_id : String) (now : Nat) (st : AppState) (pe : String)
    (hp : env.audio_probe = Except.error pe) :
    (process_video_task env video_id now st =
      process_video_task { env with audio_probe := Except.ok "" } video_id now st) ∧
    (∀ video K n E,
        findVideoRow video_id st.videos = some video →
        env.init_collections = Except.ok () →
        env.extract_keyframes = Except.ok K →
        env.count_frames = Except.ok n →
        env.embed_images = Except.ok E →
        env.upsert_visual = Except.ok () →
        process_video_task env video_id now st =
          Except.ok (runState env video_id now st) ∧
        (runState env video_id now st).transcripts = st.transcripts ∧
        (runState env video_id now st).vstore.speech = st.vstore.speech ∧
        findVideoRow video_id (runState env video_id now st).videos =
          some { video with
                  keyframe_count := K.length
                  frame_count := n
                  status := VideoStatus.completed
                  updated_at := now
                  processed_at := some now } ∧
        ({ video with
            keyframe_count := K.length
            frame_count := n
            status := VideoStatus.completed
            updated_at := now
            processed_at := some now } : VideoRec).status = VideoStatus.completed) := by
  obtain ⟨ic, ek, cf, ap, ea, tr, ei, et, uv, us⟩ := env
  simp only at hp
  subst hp
  have h1 : has_audio (Except.error pe) = false := rfl
  have h2 : has_audio (Except.ok "") = false := by decide
  constructor
  · cases hf : findVideoRow video_id st.videos with
    | none => simp [process_video_task, hf]
    | some video =>
        simp only [process_video_task, hf]
        have hbody : processBody
            ⟨ic, ek, cf, Except.error pe, ea, tr, ei, et, uv, us⟩
              video_id now video st =
            processBody ⟨ic, ek, cf, Except.ok "", ea, tr, ei, et, uv, us⟩
              video_id now video st := by
          simp [processBody, embedAndComplete, h1, h2]
        rw [hbody]
  · intro video K n E hf hic hek hcf hei huv
    simp only at hic hek hcf hei huv
    subst hic
    subst hek
    subst hcf
    subst hei
    subst huv
    have hv : video.id = video_id := findVideoRow_eq_some_id hf
    cases K with
    | nil =>
        refine ⟨?_, ?_, ?_, ?_, rfl⟩
        · simp only [runState, process_video_task, hf]
          rfl
        · simp only [runState, process_video_task, hf]
          rfl
        · simp only [runState, process_video_task, hf]
          rfl
        · simp only [runState, process_video_task, hf]
          exact findVideoRow_commit _ _ _ hv
    | cons k ks =>
        refine ⟨?_, ?_, ?_, ?_, rfl⟩
        · simp only [runState, process_video_task, hf]
          rfl
        · simp only [runState, process_video_task, hf]
          rfl
        · simp only [runState, process_video_task, hf]
          rfl
        · simp only [runState, process_video_task, hf]
          exact findVideoRow_commit _ _ _ hv

/-- Closed instantiation of C9: the probe raises on a pending video while all
other calls succeed; the run equals the silent-video run and completes with no
transcript rows and an untouched speech collection. -/
theorem probe_failure_indistinguishable_from_silent_witness :
    exEnvProbeFail.audio_probe = Except.error "probe exited 1" ∧
    process_video_task exEnvProbeFail "v1" 5 exStateFresh =
      process_video_task { exEnvProbeFail with audio_probe := Except.ok "" }
        "v1" 5 exStateFresh ∧
    (runState exEnvProbeFail "v1" 5 exStateFresh).transcripts =
      exStateFresh.transcripts ∧
    (runState exEnvProbeFail "v1" 5 exStateFresh).vstore.speech =
      exStateFresh.vstore.speech ∧
    findVideoRow "v1" (runState exEnvProbeFail "v1" 5 exStateFresh).videos =
      some { exVideo with
              keyframe_count := ([exKeyframe] : List Keyframe).length
              frame_count := 100
              status := VideoStatus.completed
              updated_at := 5
              processed_at := some 5 } :=
  ⟨rfl,
   (probe_failure_indistinguishable_from_silent exEnvProbeFail "v1" 5 exStateFresh
     "probe exited 1" rfl).1,
   ((probe_failure_indistinguishable_from_silent exEnvProbeFail "v1" 5 exStateFresh
     "probe exited 1" rfl).2 exVideo [exKeyframe] 100 [[1, 0]]
     rfl rfl rfl rfl rfl rfl).2.1,
   ((probe_failure_indistinguishable_from_silent exEnvProbeFail "v1" 5 exStateFresh
     "probe exited 1" rfl).2 exVideo [exKeyframe] 100 [[1, 0]]
     rfl rfl rfl rfl rfl rfl).2.2.1,
   ((probe_failure_indistinguishable_from_silent exEnvProbeFail "v1" 5 exStateFresh
     "probe exited 1" rfl).2 exVideo [exKeyframe] 100 [[1, 0]]
     rfl rfl rfl rfl rfl rfl).2.2.2.1⟩

/-! ## Status lifecycle of one pipeline run: C8 -/

/-- C8: for every environment, the committed status sequence of a pipeline
run started on a `PENDING` video (consecutive duplicate commits collapsed) is
one of the order-respecting sequences — the fixed total order with
`TRANSCRIBING` optional, cut short by `FAILED` — hence never skips backwards;
ranks never decrease along the run, and a terminal status is only ever the
last committed one, after which the run writes nothing.  Each `Video` row is
processed by exactly one run (creation endpoints always insert a fresh row),
so no later operation of the code changes a terminal status. -/
theorem pipeline_status_trace_follows_order
    (env : PipelineEnv) (video_id : String) (now : Nat) (st : AppState)
    (h0 : st.trace = []) :
    ((VideoStatus.pending :: runTrace env video_id now st).destutter
        (fun a b => a ≠ b) ∈ allowedTraces) ∧
    List.Chain' (fun a b => statusRank a ≤ statusRank b)
      (VideoStatus.pending :: runTrace env video_id now st) ∧
    (∀ s ∈ (runTrace env video_id now st).dropLast, isTerminal s = false) := by
  obtain ⟨ic, ek, cf, ap, ea, tr, ei, et, uv, us⟩ := env
  obtain ⟨videos, transcripts, vstore, trace⟩ := st
  simp only at h0
  subst h0
  cases hf : findVideoRow video_id videos with
  | none =>
      simp [-ne_eq, runTrace, process_video_task, hf]
      all_goals decide
  | some video =>
    cases ic with
    | error e =>
        simp [-ne_eq, runTrace, process_video_task, processBody, embedAndComplete, commitVideo,
          commitVideoAndTranscripts, mark_processing, mark_completed, mark_failed,
          has_audio, hf]
        all_goals decide
    | ok u =>
      cases ek with
      | error e =>
          simp [-ne_eq, runTrace, process_video_task, processBody, embedAndComplete, commitVideo,
            commitVideoAndTranscripts, mark_processing, mark_completed, mark_failed,
            has_audio, hf]
          all_goals decide
      | ok K =>
        cases cf with
        | error e =>
            simp [-ne_eq, runTrace, process_video_task, processBody, embedAndComplete, commitVideo,
              commitVideoAndTranscripts, mark_processing, mark_completed, mark_failed,
              has_audio, hf]
            all_goals decide
        | ok n =>
          cases ap with
          | error pe =>
              cases K with
              | nil =>
                  simp [-ne_eq, runTrace, process_video_task, processBody, embedAndComplete,
                    commitVideo, commitVideoAndTranscripts, mark_processing,
                    mark_completed, mark_failed, has_audio, hf]
                  all_goals decide
              | cons k ks =>
                cases ei with
                | error e =>
                    simp [-ne_eq, runTrace, process_video_task, processBody, embedAndComplete,
                      commitVideo, commitVideoAndTranscripts, mark_processing,
                      mark_completed, mark_failed, has_audio, hf]
                    all_goals decide
                | ok E =>
                  cases uv with
                  | error e =>
                      simp [-ne_eq, runTrace, process_video_task, processBody, embedAndComplete,
                        commitVideo, commitVideoAndTranscripts, mark_processing,
                        mark_completed, mark_failed, has_audio, hf]
                      all_goals decide
                  | ok u2 =>
                      simp [-ne_eq, runTrace, process_video_task, processBody, embedAndComplete,
                        commitVideo, commitVideoAndTranscripts, mark_processing,
                        mark_completed, mark_failed, has_audio, hf]
                      all_goals decide
          | ok out =>
            cases hA : out.data.any (fun c => !c.isWhitespace) with
            | false =>
                cases K with
                | nil =>
                    simp [-ne_eq, runTrace, process_video_task, processBody, embedAndComplete,
                      commitVideo, commitVideoAndTranscripts, mark_processing,
                      mark_completed, mark_failed, has_audio, hf, hA]
                    all_goals decide
                | cons k ks =>
                  cases ei with
                  | error e =>
                      simp [-ne_eq, runTrace, process_video_task, processBody, embedAndComplete,
                        commitVideo, commitVideoAndTranscripts, mark_processing,
                        mark_completed, mark_failed, has_audio, hf, hA]
                      all_goals decide
                  | ok E =>
                    cases uv with
                    | error e =>
                        simp [-ne_eq, runTrace, process_video_task, processBody, embedAndComplete,
                          commitVideo, commitVideoAndTranscripts, mark_processing,
                          mark_completed, mark_failed, has_audio, hf, hA]
                        all_goals decide
                    | ok u2 =>
                        simp [-ne_eq, runTrace, process_video_task, processBody, embedAndComplete,
                          commitVideo, commitVideoAndTranscripts, mark_processing,
                          mark_completed, mark_failed, has_audio, hf, hA]
                        all_goals decide
            | true =>
              cases ea with
              | error e =>
                  simp [-ne_eq, runTrace, process_video_task, processBody, embedAndComplete,
                    commitVideo, commitVideoAndTranscripts, mark_processing,
                    mark_completed, mark_failed, has_audio, hf, hA]
                  all_goals decide
              | ok apath =>
                cases tr with
                | error e =>
                    simp [-ne_eq, runTrace, process_video_task, processBody, embedAndComplete,
                      commitVideo, commitVideoAndTranscripts, mark_processing,
                      mark_completed, mark_failed, has_audio, hf, hA]
                    all_goals decide
                | ok segs =>
                  cases segs with
                  | nil =>
                      cases K with
                      | nil =>
                          simp [-ne_eq, runTrace, process_video_task, processBody,
                            embedAndComplete, commitVideo, commitVideoAndTranscripts,
                            mark_processing, mark_completed, mark_failed, has_audio,
                            hf, hA]
                          all_goals decide
                      | cons k ks =>
                        cases ei with
                        | error e =>
                            simp [-ne_eq, runTrace, process_video_task, processBody,
                              embedAndComplete, commitVideo, commitVideoAndTranscripts,
                              mark_processing, mark_completed, mark_failed, has_audio,
                              hf, hA]
                            all_goals decide
                        | ok E =>
                          cases uv with
                          | error e =>
                              simp [-ne_eq, runTrace, process_video_task, processBody,
                                embedAndComplete, commitVideo, commitVideoAndTranscripts,
                                mark_processing, mark_completed, mark_failed, has_audio,
                                hf, hA]
                              all_goals decide
                          | ok u2 =>
                              simp [-ne_eq, runTrace, process_video_task, processBody,
                                embedAndComplete, commitVideo, commitVideoAndTranscripts,
                                mark_processing, mark_completed, mark_failed, has_audio,
                                hf, hA]
                              all_goals decide
                  | cons s ss =>
                      cases K with
                      | nil =>
                          cases et with
                          | error e =>
                              simp [-ne_eq, runTrace, process_video_task, processBody,
                                embedAndComplete, commitVideo, commitVideoAndTranscripts,
                                mark_processing, mark_completed, mark_failed, has_audio,
                                hf, hA]
                              all_goals decide
                          | ok T =>
                            cases us with
                            | error e =>
                                simp [-ne_eq, runTrace, process_video_task, processBody,
                                  embedAndComplete, commitVideo,
                                  commitVideoAndTranscripts, mark_processing,
                                  mark_completed, mark_failed, has_audio, hf, hA]
                                all_goals decide
                            | ok u3 =>
                                simp [-ne_eq, runTrace, process_video_task, processBody,
                                  embedAndComplete, commitVideo,
                                  commitVideoAndTranscripts, mark_processing,
                                  mark_completed, mark_failed, has_audio, hf, hA]
                                all_goals decide
                      | cons k ks =>
                        cases ei with
                        | error e =>
                            simp [-ne_eq, runTrace, process_video_task, processBody,
                              embedAndComplete, commitVideo, commitVideoAndTranscripts,
                              mark_processing, mark_completed, mark_failed, has_audio,
                              hf, hA]
                            all_goals decide
                        | ok E =>
                          cases uv with
                          | error e =>
                              simp [-ne_eq, runTrace, process_video_task, processBody,
                                embedAndComplete, commitVideo, commitVideoAndTranscripts,
                                mark_processing, mark_completed, mark_failed, has_audio,
                                hf, hA]
                              all_goals decide
                          | ok u2 =>
                            cases et with
                            | error e =>
                                simp [-ne_eq, runTrace, process_video_task, processBody,
                                  embedAndComplete, commitVideo,
                                  commitVideoAndTranscripts, mark_processing,
                                  mark_completed, mark_failed, has_audio, hf, hA]
                                all_goals decide
                            | ok T =>
                              cases us with
                              | error e =>
                                  simp [-ne_eq, runTrace, process_video_task, processBody,
                                    embedAndComplete, commitVideo,
                                    commitVideoAndTranscripts, mark_processing,
                                    mark_completed, mark_failed, has_audio, hf, hA]
                                  all_goals decide
                              | ok u3 =>
                                  simp [-ne_eq, runTrace, process_video_task, processBody,
                                    embedAndComplete, commitVideo,
                                    commitVideoAndTranscripts, mark_processing,
                                    mark_completed, mark_failed, has_audio, hf, hA]
                                  all_goals decide

/-- Closed instantiation of C8 on the all-success environment over a fresh
pending video. -/
theorem pipeline_status_trace_follows_order_witness :
    exStateFresh.trace = [] ∧
    (VideoStatus.pending :: runTrace exEnvOk "v1" 5 exStateFresh).destutter
      (fun a b => a ≠ b) ∈ allowedTraces :=
  ⟨rfl, (pipeline_status_trace_follows_order exEnvOk "v1" 5 exStateFresh rfl).1⟩

end SearchLight
